import Mathlib

/-!
# FLOPs / execution-time engine of the flopmaster repository: a shallow embedding

This file embeds the computational core of the MatrixFlopsCalculator component
(`calculateFlops`, `getAdjustedTflops`, `calculateExecutionTime`, the precision
table `precisionTypes`) and the GPU capability catalog (`nvidiaGpus`,
`getGpusBySeries`) in Lean, and proves or refutes the specification claims
about them.

Modelling conventions:
* Matrix dimensions and operation counts are modelled as integers (`ℤ`); the
  source stores them in JavaScript numbers but every claim concerns integer
  inputs far below 2^53, where JavaScript arithmetic on them is exact.
* Throughput and time values are modelled as rationals extended with the
  JavaScript special values `Infinity`, `-Infinity` and `NaN` (`JsNum`), so
  that division by a zero throughput behaves exactly as in the source (it
  produces an infinity or `NaN`, never an exception).  Binary rounding of
  doubles is not modelled; no claim depends on it.
* Decimal constants of the source such as `19.5` are written `mkRat 39 2`
  (the identical rational value) so that every catalog comparison is
  kernel-computable.  The constant `1e12` is written `1000000000000`.
* `Number.prototype.toFixed` is modelled on rationals by the ECMAScript
  algorithm: extract the sign, round `x * 10^d` to the nearest integer with
  ties upward, print with `d` digits after the point; `Infinity` and `NaN`
  print as their names.
-/

set_option maxRecDepth 8000

/-- A JavaScript number as used by the execution-time estimator: a finite
rational or one of the special values `Infinity`, `-Infinity`, `NaN`. -/
inductive JsNum where
  | fin (q : ℚ)
  | posInf
  | negInf
  | nan
deriving DecidableEq

/-- JavaScript division `a / b` of finite numbers: finite when `b ≠ 0`,
otherwise `±Infinity` by the sign of `a`, and `NaN` for `0 / 0`. -/
def jsDivQ (a b : ℚ) : JsNum :=
  if b = 0 then
    if 0 < a then JsNum.posInf
    else if a < 0 then JsNum.negInf
    else JsNum.nan
  else JsNum.fin (a / b)

/-- JavaScript multiplication of a number by a finite constant `c`. -/
def jsMulFin (x : JsNum) (c : ℚ) : JsNum :=
  match x with
  | JsNum.fin q => JsNum.fin (q * c)
  | JsNum.posInf =>
      if 0 < c then JsNum.posInf else if c < 0 then JsNum.negInf else JsNum.nan
  | JsNum.negInf =>
      if 0 < c then JsNum.negInf else if c < 0 then JsNum.posInf else JsNum.nan
  | JsNum.nan => JsNum.nan

/-- The JavaScript comparison `x >= c` against a finite constant: false on
`NaN` and `-Infinity`, true on `Infinity`. -/
def jsGe (x : JsNum) (c : ℚ) : Bool :=
  match x with
  | JsNum.fin q => decide (c ≤ q)
  | JsNum.posInf => true
  | JsNum.negInf => false
  | JsNum.nan => false

/-- Left-pad a digit string with zeros to length `d`. -/
def padZeros (s : String) (d : ℕ) : String :=
  String.mk (List.replicate (d - s.length) '0' ++ s.data)

/-- `toFixed` on a nonnegative rational: round `q * 10^d` to the nearest
integer (ties upward, as in ECMAScript), then print with `d` digits after
the decimal point. -/
def ratToFixedNN (q : ℚ) (d : ℕ) : String :=
  let n : ℕ := (Rat.floor (q * 10 ^ d + mkRat 1 2)).toNat
  if d = 0 then toString n
  else toString (n / 10 ^ d) ++ "." ++ padZeros (toString (n % 10 ^ d)) d

/-- `Number.prototype.toFixed` on a finite rational: sign first, then the
nonnegative rendering. -/
def ratToFixed (q : ℚ) (d : ℕ) : String :=
  if q < 0 then "-" ++ ratToFixedNN (-q) d else ratToFixedNN q d

/-- `toFixed` on a JavaScript number: `"Infinity"`, `"-Infinity"` and
`"NaN"` for the special values. -/
def jsToFixed (x : JsNum) (d : ℕ) : String :=
  match x with
  | JsNum.fin q => ratToFixed q d
  | JsNum.posInf => "Infinity"
  | JsNum.negInf => "-Infinity"
  | JsNum.nan => "NaN"

/-- `interface MatrixDimensions` of the source. -/
structure MatrixDimensions where
  rows : ℤ
  cols : ℤ
deriving DecidableEq

/-- `interface FlopsResult` of the source. -/
structure FlopsResult where
  totalFlops : ℤ
  multiplications : ℤ
  additions : ℤ
  outputDimensions : MatrixDimensions
deriving DecidableEq

/-- `calculateFlops` of the source: `null` (here `none`) when the inner
dimensions differ, otherwise the counts `multiplications = m * p * n`,
`additions = m * p * (n - 1)`, `totalFlops = multiplications + additions`
and the output shape `{ rows: m, cols: p }`.  No other check is made. -/
def calculateFlops (matrixA matrixB : MatrixDimensions) : Option FlopsResult :=
  if matrixA.cols ≠ matrixB.rows then none
  else
    let m := matrixA.rows
    let n := matrixA.cols
    let p := matrixB.cols
    let outputDimensions : MatrixDimensions := ⟨m, p⟩
    let multiplications := m * p * n
    let additions := m * p * (n - 1)
    let totalFlops := multiplications + additions
    some ⟨totalFlops, multiplications, additions, outputDimensions⟩

/-- `interface PrecisionType` of the source. -/
structure PrecisionType where
  value : String
  label : String
  multiplier : ℚ
  description : String
deriving DecidableEq

/-- The `fp32` entry of `precisionTypes` (the baseline, multiplier 1.0). -/
def pFp32 : PrecisionType :=
  ⟨"fp32", "FP32 (Single Precision)", 1, "32-bit floating point (default)"⟩

/-- The `int8` entry of `precisionTypes` (multiplier 4.0). -/
def pInt8 : PrecisionType :=
  ⟨"int8", "INT8 (8-bit Integer)", 4, "8-bit integer quantization (~4x faster)"⟩

/-- The table `precisionTypes` of the source, in source order. -/
def precisionTypes : List PrecisionType :=
  [ pFp32,
    ⟨"fp16", "FP16 (Half Precision)", 2, "16-bit floating point (~2x faster)"⟩,
    ⟨"bf16", "BF16 (BFloat16)", 2, "Brain Float 16-bit (~2x faster)"⟩,
    pInt8,
    ⟨"int4", "INT4 (4-bit Integer)", 8, "4-bit integer quantization (~8x faster)"⟩,
    ⟨"fp64", "FP64 (Double Precision)", mkRat 1 2, "64-bit floating point (~2x slower)"⟩ ]

/-- `getAdjustedTflops` of the source. -/
def getAdjustedTflops (baseTflops : ℚ) (precision : PrecisionType) : ℚ :=
  baseTflops * precision.multiplier

/-- `interface ExecutionTime` of the source. -/
structure ExecutionTime where
  seconds : JsNum
  milliseconds : JsNum
  microseconds : JsNum
  nanoseconds : JsNum
  formatted : String
deriving DecidableEq

/-- `calculateExecutionTime` of the source: divide the operation count by the
precision-adjusted throughput times `1e12`, derive the finer units, and pick
the display unit by the first-match cascade seconds, `ms`, `μs`, `ns`. -/
def calculateExecutionTime (totalFlops gpuTflops : ℚ)
    (precision : PrecisionType) : ExecutionTime :=
  let adjustedTflops := getAdjustedTflops gpuTflops precision
  let seconds := jsDivQ totalFlops (adjustedTflops * 1000000000000)
  let milliseconds := jsMulFin seconds 1000
  let microseconds := jsMulFin milliseconds 1000
  let nanoseconds := jsMulFin microseconds 1000
  let formatted :=
    if jsGe seconds 1 then jsToFixed seconds 6 ++ " s"
    else if jsGe milliseconds 1 then jsToFixed milliseconds 6 ++ " ms"
    else if jsGe microseconds 1 then jsToFixed microseconds 6 ++ " μs"
    else jsToFixed nanoseconds 3 ++ " ns"
  ⟨seconds, milliseconds, microseconds, nanoseconds, formatted⟩

/-- `interface NvidiaGpu` of the source (`data/nvidiaGpus.ts`). -/
structure NvidiaGpu where
  name : String
  series : String
  architecture : String
  tflops : ℚ
  memory : Option String
  releaseYear : Option ℤ
deriving DecidableEq

/-- The `A100 PCIe 40GB` catalog entry (named here so witnesses can cite it). -/
def gA100pcie40 : NvidiaGpu :=
  ⟨"A100 PCIe 40GB", "Ampere", "Ampere", mkRat 39 2, some "40GB", some 2020⟩

set_option maxHeartbeats 2000000

/-- The catalog `nvidiaGpus` of the source, in source order. -/
def nvidiaGpus : List NvidiaGpu :=
  [ ⟨"H100 PCIe", "Hopper", "Hopper", 67, some "80GB", some 2022⟩,
    ⟨"H100 SXM", "Hopper", "Hopper", 67, some "80GB", some 2022⟩,
    ⟨"H100 NVL", "Hopper", "Hopper", 1000, some "188GB", some 2023⟩,
    gA100pcie40,
    ⟨"A100 PCIe 80GB", "Ampere", "Ampere", mkRat 39 2, some "80GB", some 2020⟩,
    ⟨"A100 SXM 40GB", "Ampere", "Ampere", mkRat 39 2, some "40GB", some 2020⟩,
    ⟨"A100 SXM 80GB", "Ampere", "Ampere", mkRat 39 2, some "80GB", some 2020⟩,
    ⟨"L40", "Ada Lovelace", "Ada Lovelace", mkRat 487 10, some "48GB", some 2022⟩,
    ⟨"L40S", "Ada Lovelace", "Ada Lovelace", mkRat 458 5, some "48GB", some 2023⟩,
    ⟨"L4", "Ada Lovelace", "Ada Lovelace", mkRat 303 10, some "24GB", some 2022⟩,
    ⟨"V100 PCIe 16GB", "Volta", "Volta", mkRat 157 10, some "16GB", some 2017⟩,
    ⟨"V100 PCIe 32GB", "Volta", "Volta", mkRat 157 10, some "32GB", some 2017⟩,
    ⟨"V100 SXM 16GB", "Volta", "Volta", mkRat 157 10, some "16GB", some 2017⟩,
    ⟨"V100 SXM 32GB", "Volta", "Volta", mkRat 157 10, some "32GB", some 2017⟩,
    ⟨"P100 PCIe", "Pascal", "Pascal", mkRat 93 10, some "16GB", some 2016⟩,
    ⟨"P100 SXM", "Pascal", "Pascal", mkRat 53 5, some "16GB", some 2016⟩,
    ⟨"RTX 4090", "GeForce RTX 40", "Ada Lovelace", 83, some "24GB", some 2022⟩,
    ⟨"RTX 4080", "GeForce RTX 40", "Ada Lovelace", mkRat 487 10, some "16GB", some 2022⟩,
    ⟨"RTX 4070 Ti", "GeForce RTX 40", "Ada Lovelace", mkRat 401 10, some "12GB", some 2023⟩,
    ⟨"RTX 4070", "GeForce RTX 40", "Ada Lovelace", mkRat 291 10, some "12GB", some 2023⟩,
    ⟨"RTX 4060 Ti 16GB", "GeForce RTX 40", "Ada Lovelace", mkRat 221 10, some "16GB", some 2023⟩,
    ⟨"RTX 4060 Ti 8GB", "GeForce RTX 40", "Ada Lovelace", mkRat 221 10, some "8GB", some 2023⟩,
    ⟨"RTX 4060", "GeForce RTX 40", "Ada Lovelace", mkRat 151 10, some "8GB", some 2023⟩,
    ⟨"RTX 3090 Ti", "GeForce RTX 30", "Ampere", 40, some "24GB", some 2022⟩,
    ⟨"RTX 3090", "GeForce RTX 30", "Ampere", 36, some "24GB", some 2020⟩,
    ⟨"RTX 3080 Ti", "GeForce RTX 30", "Ampere", mkRat 341 10, some "12GB", some 2021⟩,
    ⟨"RTX 3080 12GB", "GeForce RTX 30", "Ampere", mkRat 153 5, some "12GB", some 2022⟩,
    ⟨"RTX 3080 10GB", "GeForce RTX 30", "Ampere", mkRat 149 5, some "10GB", some 2020⟩,
    ⟨"RTX 3070 Ti", "GeForce RTX 30", "Ampere", mkRat 217 10, some "8GB", some 2021⟩,
    ⟨"RTX 3070", "GeForce RTX 30", "Ampere", mkRat 203 10, some "8GB", some 2020⟩,
    ⟨"RTX 3060 Ti", "GeForce RTX 30", "Ampere", mkRat 81 5, some "8GB", some 2020⟩,
    ⟨"RTX 3060 12GB", "GeForce RTX 30", "Ampere", mkRat 127 10, some "12GB", some 2021⟩,
    ⟨"RTX 3060 8GB", "GeForce RTX 30", "Ampere", mkRat 127 10, some "8GB", some 2022⟩,
    ⟨"RTX 3050", "GeForce RTX 30", "Ampere", mkRat 91 10, some "8GB", some 2022⟩,
    ⟨"RTX 2080 Ti", "GeForce RTX 20", "Turing", mkRat 67 5, some "11GB", some 2018⟩,
    ⟨"RTX 2080 Super", "GeForce RTX 20", "Turing", mkRat 111 10, some "8GB", some 2019⟩,
    ⟨"RTX 2080", "GeForce RTX 20", "Turing", mkRat 101 10, some "8GB", some 2018⟩,
    ⟨"RTX 2070 Super", "GeForce RTX 20", "Turing", mkRat 91 10, some "8GB", some 2019⟩,
    ⟨"RTX 2070", "GeForce RTX 20", "Turing", mkRat 79 10, some "8GB", some 2018⟩,
    ⟨"RTX 2060 Super", "GeForce RTX 20", "Turing", mkRat 36 5, some "8GB", some 2019⟩,
    ⟨"RTX 2060", "GeForce RTX 20", "Turing", mkRat 13 2, some "6GB", some 2019⟩,
    ⟨"GTX 1660 Ti", "GeForce GTX 16", "Turing", mkRat 11 2, some "6GB", some 2019⟩,
    ⟨"GTX 1660 Super", "GeForce GTX 16", "Turing", 5, some "6GB", some 2019⟩,
    ⟨"GTX 1660", "GeForce GTX 16", "Turing", mkRat 23 5, some "6GB", some 2019⟩,
    ⟨"GTX 1650 Super", "GeForce GTX 16", "Turing", mkRat 22 5, some "4GB", some 2019⟩,
    ⟨"GTX 1650", "GeForce GTX 16", "Turing", 3, some "4GB", some 2019⟩,
    ⟨"GTX 1080 Ti", "GeForce 10", "Pascal", mkRat 113 10, some "11GB", some 2017⟩,
    ⟨"GTX 1080", "GeForce 10", "Pascal", mkRat 89 10, some "8GB", some 2016⟩,
    ⟨"GTX 1070 Ti", "GeForce 10", "Pascal", mkRat 41 5, some "8GB", some 2017⟩,
    ⟨"GTX 1070", "GeForce 10", "Pascal", mkRat 13 2, some "8GB", some 2016⟩,
    ⟨"GTX 1060 6GB", "GeForce 10", "Pascal", mkRat 22 5, some "6GB", some 2016⟩,
    ⟨"GTX 1060 3GB", "GeForce 10", "Pascal", mkRat 39 10, some "3GB", some 2016⟩,
    ⟨"GTX 1050 Ti", "GeForce 10", "Pascal", mkRat 21 10, some "4GB", some 2016⟩,
    ⟨"GTX 1050", "GeForce 10", "Pascal", mkRat 9 5, some "2GB", some 2016⟩,
    ⟨"Quadro RTX 8000", "Quadro RTX", "Turing", mkRat 163 10, some "48GB", some 2018⟩,
    ⟨"Quadro RTX 6000", "Quadro RTX", "Turing", mkRat 163 10, some "24GB", some 2018⟩,
    ⟨"Quadro RTX 5000", "Quadro RTX", "Turing", mkRat 56 5, some "16GB", some 2018⟩,
    ⟨"Quadro RTX 4000", "Quadro RTX", "Turing", mkRat 71 10, some "8GB", some 2018⟩,
    ⟨"RTX A6000", "Quadro RTX", "Ampere", mkRat 387 10, some "48GB", some 2020⟩,
    ⟨"RTX A5000", "Quadro RTX", "Ampere", mkRat 139 5, some "24GB", some 2021⟩,
    ⟨"RTX A4000", "Quadro RTX", "Ampere", mkRat 96 5, some "16GB", some 2021⟩,
    ⟨"RTX A2000", "Quadro RTX", "Ampere", 8, some "6GB", some 2021⟩,
    ⟨"RTX 6000 Ada", "Quadro RTX", "Ada Lovelace", mkRat 458 5, some "48GB", some 2022⟩,
    ⟨"RTX 5000 Ada", "Quadro RTX", "Ada Lovelace", mkRat 303 10, some "32GB", some 2022⟩,
    ⟨"RTX 4000 Ada", "Quadro RTX", "Ada Lovelace", mkRat 247 10, some "20GB", some 2023⟩,
    ⟨"RTX 4000 SFF Ada", "Quadro RTX", "Ada Lovelace", mkRat 96 5, some "20GB", some 2023⟩,
    ⟨"Quadro P6000", "Quadro", "Pascal", 12, some "24GB", some 2016⟩,
    ⟨"Quadro P5000", "Quadro", "Pascal", mkRat 89 10, some "16GB", some 2016⟩,
    ⟨"Quadro P4000", "Quadro", "Pascal", mkRat 53 10, some "8GB", some 2016⟩,
    ⟨"Quadro P2000", "Quadro", "Pascal", 3, some "5GB", some 2017⟩,
    ⟨"Quadro P1000", "Quadro", "Pascal", mkRat 19 10, some "4GB", some 2017⟩,
    ⟨"Quadro GV100", "Quadro", "Volta", mkRat 74 5, some "32GB", some 2018⟩,
    ⟨"Tesla A100 40GB", "Tesla", "Ampere", mkRat 39 2, some "40GB", some 2020⟩,
    ⟨"Tesla A100 80GB", "Tesla", "Ampere", mkRat 39 2, some "80GB", some 2020⟩,
    ⟨"Tesla V100 PCIe", "Tesla", "Volta", mkRat 157 10, some "32GB", some 2017⟩,
    ⟨"Tesla V100 SXM", "Tesla", "Volta", mkRat 157 10, some "32GB", some 2017⟩,
    ⟨"Tesla P100", "Tesla", "Pascal", mkRat 53 5, some "16GB", some 2016⟩,
    ⟨"Tesla P40", "Tesla", "Pascal", 12, some "24GB", some 2016⟩,
    ⟨"Tesla P4", "Tesla", "Pascal", mkRat 11 2, some "8GB", some 2016⟩,
    ⟨"TITAN RTX", "TITAN", "Turing", mkRat 163 10, some "24GB", some 2018⟩,
    ⟨"TITAN V", "TITAN", "Volta", 15, some "12GB", some 2017⟩,
    ⟨"TITAN Xp", "TITAN", "Pascal", mkRat 121 10, some "12GB", some 2017⟩,
    ⟨"TITAN X (Pascal)", "TITAN", "Pascal", mkRat 1097 100, some "12GB", some 2016⟩,
    ⟨"GTX 980 Ti", "GeForce 9", "Maxwell", mkRat 28 5, some "6GB", some 2015⟩,
    ⟨"GTX 980", "GeForce 9", "Maxwell", mkRat 23 5, some "4GB", some 2014⟩,
    ⟨"GTX 970", "GeForce 9", "Maxwell", mkRat 7 2, some "4GB", some 2014⟩,
    ⟨"GTX 960", "GeForce 9", "Maxwell", mkRat 23 10, some "2GB", some 2015⟩,
    ⟨"GTX 950", "GeForce 9", "Maxwell", mkRat 9 5, some "2GB", some 2015⟩,
    ⟨"Jetson AGX Orin", "Jetson", "Ampere", mkRat 53 10, some "32GB", some 2022⟩,
    ⟨"Jetson AGX Xavier", "Jetson", "Volta", mkRat 7 5, some "32GB", some 2018⟩,
    ⟨"Jetson Xavier NX", "Jetson", "Volta", mkRat 7 5, some "16GB", some 2020⟩ ]

/-- Insert a GPU into a list sorted by descending `tflops`, after all entries
with an equal or larger value: the stable descending insertion that reproduces
the source's stable `sort` with comparator `b.tflops - a.tflops`. -/
def insertByTflopsDesc (g : NvidiaGpu) : List NvidiaGpu → List NvidiaGpu
  | [] => [g]
  | h :: t => if h.tflops < g.tflops then g :: h :: t else h :: insertByTflopsDesc g t

/-- Stable sort by descending `tflops` (insertion sort). -/
def sortByTflopsDesc (l : List NvidiaGpu) : List NvidiaGpu :=
  l.foldl (fun acc g => insertByTflopsDesc g acc) []

/-- The series labels in order of first appearance in the catalog: the key
insertion order of the record built by `getGpusBySeries` in the source. -/
def seriesKeys : List String :=
  nvidiaGpus.foldl (fun acc g => if acc.contains g.series then acc else acc ++ [g.series]) []

/-- `getGpusBySeries` of the source: group the catalog by series label
(keys in first-appearance order, members in catalog order) and sort each
group by descending `tflops`. -/
def getGpusBySeries : List (String × List NvidiaGpu) :=
  seriesKeys.map fun s => (s, sortByTflopsDesc (nvidiaGpus.filter fun g => g.series == s))

/-! ## Helper lemmas -/

lemma jsDivQ_of_ne_zero (a b : ℚ) (hb : b ≠ 0) : jsDivQ a b = JsNum.fin (a / b) := by
  simp [jsDivQ, hb]

lemma jsDivQ_pos_zero (a : ℚ) (ha : 0 < a) : jsDivQ a 0 = JsNum.posInf := by
  simp [jsDivQ, ha]

lemma gpu_tflops_pos : ∀ g ∈ nvidiaGpus, 0 < g.tflops := by decide

lemma precisionTypes_multiplier_pos : ∀ p ∈ precisionTypes, 0 < p.multiplier := by decide

lemma calculateExecutionTime_zero_flops_eq (t : ℚ) (p : PrecisionType)
    (h : t * p.multiplier ≠ 0) :
    calculateExecutionTime 0 t p =
      ⟨JsNum.fin 0, JsNum.fin 0, JsNum.fin 0, JsNum.fin 0, "0.000 ns"⟩ := by
  have hb : t * p.multiplier * 1000000000000 ≠ 0 := mul_ne_zero h (by norm_num)
  simp only [calculateExecutionTime, getAdjustedTflops]
  rw [jsDivQ_of_ne_zero _ _ hb, zero_div]
  with_unfolding_all decide

lemma calculateExecutionTime_zero_tflops_eq (flops : ℚ) (hf : 0 < flops)
    (p : PrecisionType) :
    calculateExecutionTime flops 0 p =
      ⟨JsNum.posInf, JsNum.posInf, JsNum.posInf, JsNum.posInf, "Infinity s"⟩ := by
  simp only [calculateExecutionTime, getAdjustedTflops, zero_mul]
  rw [jsDivQ_pos_zero flops hf]
  with_unfolding_all decide

/-! ## Claim theorems -/

/-- C1: for all positive integer dimensions `m, n, p`, `calculateFlops` on
shapes `m×n` and `n×p` succeeds with `multiplications = m*p*n`,
`additions = m*p*(n-1)` (which equals `0` when `n = 1`, that is, the
`if n > 1` reading), `totalFlops` their sum, and output shape `m×p`. -/
theorem calculateFlops_compatible_shapes (m n p : ℤ)
    (hm : 1 ≤ m) (hn : 1 ≤ n) (hp : 1 ≤ p) :
    calculateFlops ⟨m, n⟩ ⟨n, p⟩ =
      some ⟨m * p * n + m * p * (n - 1), m * p * n, m * p * (n - 1), ⟨m, p⟩⟩ ∧
    m * p * (n - 1) = (if 1 < n then m * p * (n - 1) else 0) := by
  constructor
  · simp [calculateFlops]
  · rcases lt_or_eq_of_le hn with h | h
    · rw [if_pos h]
    · rw [if_neg (by omega)]
      subst h
      ring

/-- Witness for C1 at `m = 3`, `n = 4`, `p = 5` (the spec's concrete
scenario 1: 60 multiplications, 45 additions, 105 total). -/
theorem calculateFlops_compatible_shapes_witness :
    calculateFlops ⟨3, 4⟩ ⟨4, 5⟩ =
      some ⟨3 * 5 * 4 + 3 * 5 * (4 - 1), 3 * 5 * 4, 3 * 5 * (4 - 1), ⟨3, 5⟩⟩ ∧
    (3 * 5 * (4 - 1) : ℤ) = (if (1 : ℤ) < 4 then 3 * 5 * (4 - 1) else 0) :=
  calculateFlops_compatible_shapes 3 4 5 (by decide) (by decide) (by decide)

/-- C2 counterexample: the claim says `calculateFlops` fails on any shape
with a dimension below 1, but on `{rows: 0, cols: 1} × {rows: 1, cols: 1}`
(the spec's own boundary example) the source returns a `FlopsResult`. -/
theorem calculateFlops_accepts_zero_rows :
    (calculateFlops ⟨0, 1⟩ ⟨1, 1⟩).isSome = true := by decide

/-- C2 amended: `calculateFlops` performs no positivity validation.  For
every pair of shapes whose inner dimensions match, including shapes with a
dimension below 1, it returns the `FlopsResult` computed by the usual
formulas instead of an error. -/
theorem calculateFlops_no_positivity_validation (a b : MatrixDimensions)
    (hmatch : a.cols = b.rows)
    (hdeg : a.rows < 1 ∨ a.cols < 1 ∨ b.rows < 1 ∨ b.cols < 1) :
    calculateFlops a b =
      some ⟨a.rows * b.cols * a.cols + a.rows * b.cols * (a.cols - 1),
            a.rows * b.cols * a.cols, a.rows * b.cols * (a.cols - 1),
            ⟨a.rows, b.cols⟩⟩ := by
  simp [calculateFlops, hmatch]

/-- Witness for the amended C2 at the degenerate shapes
`{rows: 0, cols: 1} × {rows: 1, cols: 1}`. -/
theorem calculateFlops_no_positivity_validation_witness :
    calculateFlops ⟨0, 1⟩ ⟨1, 1⟩ =
      some ⟨0 * 1 * 1 + 0 * 1 * (1 - 1), 0 * 1 * 1, 0 * 1 * (1 - 1), ⟨0, 1⟩⟩ :=
  calculateFlops_no_positivity_validation ⟨0, 1⟩ ⟨1, 1⟩ rfl (Or.inl (by decide))

/-- C3 counterexample: with `totalFlops = 0` the formatted string is
`"0.000 ns"` (the nanoseconds branch of the cascade), not the claimed
`"0.000000 s"`. -/
theorem calculateExecutionTime_zero_flops_not_seconds_string :
    (calculateExecutionTime 0 gA100pcie40.tflops pFp32).formatted ≠ "0.000000 s" := by
  rw [calculateExecutionTime_zero_flops_eq gA100pcie40.tflops pFp32
    (by with_unfolding_all decide)]
  decide

/-- C3 amended: for every catalog device and precision mode,
`calculateExecutionTime` with `totalFlops = 0` yields `seconds = 0` and the
formatted string `"0.000 ns"` (no unit reaches 1, so the nanoseconds branch
fires), not a division error. -/
theorem calculateExecutionTime_zero_flops_ok (g : NvidiaGpu) (hg : g ∈ nvidiaGpus)
    (p : PrecisionType) (hp : p ∈ precisionTypes) :
    (calculateExecutionTime 0 g.tflops p).seconds = JsNum.fin 0 ∧
    (calculateExecutionTime 0 g.tflops p).formatted = "0.000 ns" := by
  have h : g.tflops * p.multiplier ≠ 0 :=
    ne_of_gt (mul_pos (gpu_tflops_pos g hg) (precisionTypes_multiplier_pos p hp))
  rw [calculateExecutionTime_zero_flops_eq g.tflops p h]
  exact ⟨rfl, rfl⟩

/-- Witness for the amended C3 at the `A100 PCIe 40GB` device and `fp32`. -/
theorem calculateExecutionTime_zero_flops_ok_witness :
    (calculateExecutionTime 0 gA100pcie40.tflops pFp32).seconds = JsNum.fin 0 ∧
    (calculateExecutionTime 0 gA100pcie40.tflops pFp32).formatted = "0.000 ns" :=
  calculateExecutionTime_zero_flops_ok gA100pcie40 (by decide) pFp32 (by decide)

/-- C4 counterexample: with `gpuTflops = 0` and `totalFlops = 105` the claim
says the operation fails with an `InvalidDeviceError`, but the source
performs the division and silently returns an `ExecutionTime` record whose
every unit is `Infinity`, formatted `"Infinity s"`. -/
theorem calculateExecutionTime_zero_tflops_silent_infinity :
    calculateExecutionTime 105 0 pFp32 =
      ⟨JsNum.posInf, JsNum.posInf, JsNum.posInf, JsNum.posInf, "Infinity s"⟩ :=
  calculateExecutionTime_zero_tflops_eq 105 (by norm_num) pFp32

/-- C4 amended: `calculateExecutionTime` performs no throughput validation:
with `gpuTflops = 0` and positive `totalFlops` it does not fail but silently
produces an infinite time, `seconds = Infinity` formatted `"Infinity s"`. -/
theorem calculateExecutionTime_no_throughput_validation (flops : ℚ)
    (hf : 0 < flops) (p : PrecisionType) :
    (calculateExecutionTime flops 0 p).seconds = JsNum.posInf ∧
    (calculateExecutionTime flops 0 p).formatted = "Infinity s" := by
  rw [calculateExecutionTime_zero_tflops_eq flops hf p]
  exact ⟨rfl, rfl⟩

/-- Witness for the amended C4 at `totalFlops = 210`, precision `int8`. -/
theorem calculateExecutionTime_no_throughput_validation_witness :
    (calculateExecutionTime 210 0 pInt8).seconds = JsNum.posInf ∧
    (calculateExecutionTime 210 0 pInt8).formatted = "Infinity s" :=
  calculateExecutionTime_no_throughput_validation 210 (by norm_num) pInt8

/-- C5 counterexample: the claim says the failure carries both input shapes,
but the source returns the bare `null` (here `none`): two failing calls with
different shape pairs return the identical value, so the failure value
determines neither input shape. -/
theorem calculateFlops_failure_determines_no_shapes :
    calculateFlops ⟨2, 3⟩ ⟨5, 2⟩ = calculateFlops ⟨7, 1⟩ ⟨9, 4⟩ ∧
    calculateFlops ⟨2, 3⟩ ⟨5, 2⟩ = none := by decide

/-- C5 amended: for all pairs of shapes with `a.cols ≠ b.rows`,
`calculateFlops` does not return a `FlopsResult`: it fails by returning
`null` (here `none`), a failure value that carries no information about the
offending shapes. -/
theorem calculateFlops_mismatched_shapes (a b : MatrixDimensions)
    (h : a.cols ≠ b.rows) : calculateFlops a b = none := by
  simp [calculateFlops, h]

/-- Witness for the amended C5 at the spec's concrete scenario 2,
`{rows: 2, cols: 3} × {rows: 5, cols: 2}`. -/
theorem calculateFlops_mismatched_shapes_witness :
    calculateFlops ⟨2, 3⟩ ⟨5, 2⟩ = none :=
  calculateFlops_mismatched_shapes ⟨2, 3⟩ ⟨5, 2⟩ (by decide)

/-- C6: for every result of `calculateExecutionTime`, the formatted string
is selected by the first-match cascade over the result's own fields:
seconds at 6 decimals if `seconds >= 1`, else milliseconds at 6 decimals if
`milliseconds >= 1`, else microseconds at 6 decimals if `microseconds >= 1`,
else nanoseconds at 3 decimals. -/
theorem calculateExecutionTime_format_cascade (flops t : ℚ) (p : PrecisionType) :
    (calculateExecutionTime flops t p).formatted =
      (if jsGe (calculateExecutionTime flops t p).seconds 1 then
          jsToFixed (calculateExecutionTime flops t p).seconds 6 ++ " s"
        else if jsGe (calculateExecutionTime flops t p).milliseconds 1 then
          jsToFixed (calculateExecutionTime flops t p).milliseconds 6 ++ " ms"
        else if jsGe (calculateExecutionTime flops t p).microseconds 1 then
          jsToFixed (calculateExecutionTime flops t p).microseconds 6 ++ " μs"
        else jsToFixed (calculateExecutionTime flops t p).nanoseconds 3 ++ " ns") := rfl

/-- C7: for every `totalFlops`, every throughput `t > 0` and every catalog
precision with multiplier `k`, the seconds value is exactly `1/k` times the
seconds value under the baseline precision (multiplier 1), holding
`totalFlops` and the device fixed. -/
theorem calculateExecutionTime_precision_scaling (flops t : ℚ) (ht : 0 < t)
    (p pBase : PrecisionType) (hp : p ∈ precisionTypes)
    (hBase : pBase.multiplier = 1) :
    (calculateExecutionTime flops t pBase).seconds =
      JsNum.fin (flops / (t * 1000000000000)) ∧
    (calculateExecutionTime flops t p).seconds =
      JsNum.fin (1 / p.multiplier * (flops / (t * 1000000000000))) := by
  have hm : 0 < p.multiplier := precisionTypes_multiplier_pos p hp
  have ht' : t ≠ 0 := ne_of_gt ht
  have hm' : p.multiplier ≠ 0 := ne_of_gt hm
  have h12 : (1000000000000 : ℚ) ≠ 0 := by norm_num
  constructor
  · simp only [calculateExecutionTime, getAdjustedTflops, hBase, mul_one]
    rw [jsDivQ_of_ne_zero _ _ (mul_ne_zero ht' h12)]
  · simp only [calculateExecutionTime, getAdjustedTflops]
    rw [jsDivQ_of_ne_zero _ _ (mul_ne_zero (mul_ne_zero ht' hm') h12)]
    congr 1
    field_simp
    left
    ring

/-- Witness for C7 at `totalFlops = 105`, the A100's `19.5` TFLOPS, and the
`int8` precision (multiplier 4) against the `fp32` baseline. -/
theorem calculateExecutionTime_precision_scaling_witness :
    (calculateExecutionTime 105 (mkRat 39 2) pFp32).seconds =
      JsNum.fin (105 / (mkRat 39 2 * 1000000000000)) ∧
    (calculateExecutionTime 105 (mkRat 39 2) pInt8).seconds =
      JsNum.fin (1 / pInt8.multiplier * (105 / (mkRat 39 2 * 1000000000000))) :=
  calculateExecutionTime_precision_scaling 105 (mkRat 39 2) (by decide) pInt8 pFp32
    (by decide) rfl

/-- C8: `getGpusBySeries` maps each series label (labels are pairwise
distinct) to devices of exactly that series; every catalog device appears
exactly once across the groups; and each group is sorted by descending
`tflops`.  The function is a pure constant of the catalog, so it returns
the same mapping on every call. -/
theorem getGpusBySeries_partition_sorted :
    (getGpusBySeries.map Prod.fst).Nodup ∧
    (getGpusBySeries.all fun pr => pr.2.all fun g => g.series == pr.1) = true ∧
    (nvidiaGpus.all fun g =>
      ((getGpusBySeries.flatMap Prod.snd).filter fun x => decide (x = g)).length
        == 1) = true ∧
    (getGpusBySeries.all fun pr =>
      decide (pr.2.Pairwise fun x y => y.tflops ≤ x.tflops)) = true := by decide

/-- C9: every catalog device has positive `tflops` and a name unique within
the catalog; every precision mode has a positive multiplier and a `value`
identifier unique within the table. -/
theorem catalog_invariants :
    (nvidiaGpus.all fun g => decide (0 < g.tflops)) = true ∧
    (nvidiaGpus.map fun g => g.name).Nodup ∧
    (precisionTypes.all fun p => decide (0 < p.multiplier)) = true ∧
    (precisionTypes.map fun p => p.value).Nodup := by decide

/-- C10: for shapes `m×0` and `0×p` with `m, p ≥ 1` the inner dimensions
match (both 0), so `calculateFlops` succeeds; `multiplications = 0` and
`additions = totalFlops = -(m*p)`, a negative value. -/
theorem calculateFlops_zero_inner_dimension (m p : ℤ) (hm : 1 ≤ m) (hp : 1 ≤ p) :
    calculateFlops ⟨m, 0⟩ ⟨0, p⟩ = some ⟨-(m * p), 0, -(m * p), ⟨m, p⟩⟩ ∧
    -(m * p) < 0 := by
  have hmp : 0 < m * p := mul_pos (by omega) (by omega)
  constructor
  · have h1 : m * p * ((0 : ℤ) - 1) = -(m * p) := by ring
    have h2 : m * p * (0 : ℤ) = 0 := by ring
    simp [calculateFlops, h1, h2]
  · exact neg_neg_of_pos hmp

/-- Witness for C10 at `m = 2`, `p = 3`: the result is a success with
`totalFlops = -6`. -/
theorem calculateFlops_zero_inner_dimension_witness :
    calculateFlops ⟨2, 0⟩ ⟨0, 3⟩ = some ⟨-(2 * 3), 0, -(2 * 3), ⟨2, 3⟩⟩ ∧
    -((2 : ℤ) * 3) < 0 :=
  calculateFlops_zero_inner_dimension 2 3 (by decide) (by decide)
